import Mathlib

/- Formal model of the exist_search Telegram relay bot.
   The definitions below are shallow embeddings of the Python source files
   src/utils.py, src/main.py, src/fastapi_bot.py and src/openai_client.py:
   pure functions become Lean functions, the side effects that matter to the
   properties (messages sent to the chat, calls made to the completion API,
   metrics counter updates) are made explicit as returned data, and Python
   exceptions become Except / explicit outcome constructors.  Wall-clock
   durations are modelled as rationals. -/

/- ===================== utils.py : validate_input ===================== -/

/-- utils.validate_input.  A Python value that is None or not a string is
    modelled as Option.none; `not text` on a string is the emptiness test. -/
def validate_input (text : Option String) (max_length : Nat) : Bool :=
  match text with
  | none => false
  | some t =>
    if t.length = 0 then false
    else if t.length > max_length then false
    else true

/- ================ utils.py / main.py : localized messages ================ -/

def rateLimitMessage : String :=
  "Вибачте, зараз занадто багато запитів до серверів OpenAI. Будь ласка, спробуйте пізніше."

def apiConnectionMessage : String :=
  "Вибачте, виникли проблеми зі з\x27єднанням до серверів OpenAI. Будь ласка, спробуйте пізніше."

def apiErrorMessage : String :=
  "Вибачте, виникла помилка при обробці вашого запиту. Будь ласка, спробуйте пізніше."

def validationErrorMessage : String :=
  "Вибачте, ваше повідомлення занадто довге або містить неприпустимі символи."

def timeoutErrorMessage : String :=
  "Вибачте, запит зайняв занадто багато часу. Будь ласка, спробуйте ще раз."

def unknownErrorMessage : String :=
  "Вибачте, виникла невідома помилка. Спробуйте ще раз пізніше."

/-- main.py line 248: the reply sent on an unclassified exception. -/
def unexpectedErrorMessage : String :=
  "Вибачте, виникла помилка. Спробуйте ще раз пізніше або змініть ваш запит."

/-- utils.format_error_message: dictionary lookup with UnknownError default. -/
def format_error_message (error_type : String) : String :=
  if error_type = "RateLimitError" then rateLimitMessage
  else if error_type = "APIConnectionError" then apiConnectionMessage
  else if error_type = "APIError" then apiErrorMessage
  else if error_type = "ValidationError" then validationErrorMessage
  else if error_type = "TimeoutError" then timeoutErrorMessage
  else unknownErrorMessage

/- ===================== utils.py : MetricsTracker ===================== -/

structure MetricsTracker where
  request_count : Nat
  error_count : Nat
  total_processing_time : ℚ
  start_time : ℚ

/-- MetricsTracker.__init__ (start_time stands for the time.time() reading). -/
def MetricsTracker.init (start_time : ℚ) : MetricsTracker :=
  ⟨0, 0, 0, start_time⟩

/-- MetricsTracker.record_request. -/
def MetricsTracker.record_request (m : MetricsTracker) (processing_time : ℚ)
    (had_error : Bool) : MetricsTracker :=
  ⟨m.request_count + 1,
   if had_error then m.error_count + 1 else m.error_count,
   m.total_processing_time + processing_time,
   m.start_time⟩

/-- The snapshot returned by MetricsTracker.get_metrics. -/
structure Metrics where
  uptime_seconds : ℚ
  total_requests : Nat
  error_rate : ℚ
  avg_processing_time : ℚ
  requests_per_minute : ℚ

/-- MetricsTracker.get_metrics; `now` stands for the time.time() reading. -/
def MetricsTracker.get_metrics (m : MetricsTracker) (now : ℚ) : Metrics :=
  ⟨now - m.start_time,
   m.request_count,
   (m.error_count : ℚ) / ((max 1 m.request_count : Nat) : ℚ),
   m.total_processing_time / ((max 1 m.request_count : Nat) : ℚ),
   if now - m.start_time > 0
     then ((m.request_count : ℚ) / (now - m.start_time)) * 60
     else 0⟩

/-- A sequence of record_request calls applied to a tracker in order. -/
def applyRecords (calls : List (ℚ × Bool)) (m : MetricsTracker) : MetricsTracker :=
  calls.foldl (fun acc c => acc.record_request c.1 c.2) m

/-- Python str.strip() with no argument: drop leading and trailing
    whitespace. -/
def String.strip (s : String) : String :=
  String.mk (((s.data.dropWhile Char.isWhitespace).reverse.dropWhile Char.isWhitespace).reverse)

/- ===================== utils.py : with_retry ===================== -/

/-- The possible terminations of one call of the wrapper produced by
    utils.with_retry.  `raised e` is the wrapped operation's own exception
    propagated by the bare `raise` after retries are exhausted; `nameError`
    is the NameError raised by the line `await asyncio.sleep(total_delay)`,
    because utils.py never imports asyncio, so the name lookup fails at the
    first retry instead of sleeping and re-entering the loop; `loopExit` is
    the `raise RuntimeError("Unexpected retry loop exit")` after the while
    loop. -/
inductive RetryResult (E A : Type) where
  | ok (a : A)
  | raised (e : E)
  | nameError
  | loopExit

def RetryResult.isLoopExit {E A : Type} : RetryResult E A → Bool
  | RetryResult.loopExit => true
  | _ => false

/-- The body of the wrapper closure in utils.with_retry, entered at the
    `while retry_count <= max_retries` check.  `op calls` is the outcome of
    the next `await func(...)` when `calls` invocations have already been
    made; the second component of the result is the total number of
    invocations of the wrapped operation. -/
def with_retry_go {E A : Type} (op : Nat → Except E A) (max_retries retry_count calls : Nat) :
    RetryResult E A × Nat :=
  if retry_count ≤ max_retries then
    match op calls with
    | Except.ok a => (RetryResult.ok a, calls + 1)
    | Except.error e =>
      if retry_count + 1 > max_retries then
        (RetryResult.raised e, calls + 1)
      else
        (RetryResult.nameError, calls + 1)
  else
    (RetryResult.loopExit, calls)

/-- One call of the wrapper produced by utils.with_retry: the loop starts
    with `retry_count = 0` and no invocations made yet. -/
def with_retry_wrapper {E A : Type} (op : Nat → Except E A) (max_retries : Nat) :
    RetryResult E A × Nat :=
  with_retry_go op max_retries 0 0

/-- A generic operation failure, standing for the Python exception raised by
    a wrapped operation. -/
inductive OpErr where
  | boom

/- ===================== main.py : handle_message ===================== -/

/-- Outcome of one `openai_client.chat.completions.create` call inside
    main.handle_message, as classified by its except clauses. -/
inductive CompletionOutcome where
  | success (content : String)
  | rateLimitError
  | apiConnectionError
  | apiError
  | unexpectedError

/-- The environment one handle_message call runs in: whether the
    `context.bot.send_chat_action` call succeeds, and the outcome of the
    k-th completion call (0-indexed). -/
structure DispatchWorld where
  chatActionOk : Bool
  attempt : Nat → CompletionOutcome

/-- The `while retry_count <= max_retries` loop of main.handle_message
    (lines 197-250).  The result is the list of replies sent to the user by
    this loop and the list of texts sent upstream (one entry per
    completions.create call).  Falling out of the loop sends nothing (the
    function body simply ends).  On a retryable error with retries left the
    code sleeps with the blocking `time.sleep` (time is imported in main.py,
    so this succeeds) and re-enters the loop. -/
def handle_message_loop (w : DispatchWorld) (user_text : String)
    (max_retries retry_count : Nat) (upstream : List String) :
    List String × List String :=
  if retry_count ≤ max_retries then
    match w.attempt upstream.length with
    | CompletionOutcome.success content =>
        ([content.strip], upstream ++ [user_text])
    | CompletionOutcome.rateLimitError =>
        if _h : retry_count < max_retries then
          handle_message_loop w user_text max_retries (retry_count + 1) (upstream ++ [user_text])
        else
          ([rateLimitMessage], upstream ++ [user_text])
    | CompletionOutcome.apiConnectionError =>
        if _h : retry_count < max_retries then
          handle_message_loop w user_text max_retries (retry_count + 1) (upstream ++ [user_text])
        else
          ([apiConnectionMessage], upstream ++ [user_text])
    | CompletionOutcome.apiError =>
        ([apiErrorMessage], upstream ++ [user_text])
    | CompletionOutcome.unexpectedError =>
        ([unexpectedErrorMessage], upstream ++ [user_text])
  else
    ([], upstream)
  termination_by max_retries - retry_count
  decreasing_by all_goals omega

/-- main.handle_message.  The unguarded `await context.bot.send_chat_action`
    on line 191 runs before the retry loop: if it raises, the exception
    propagates out of the handler (Except.error) and nothing is sent.
    Otherwise the loop runs with `max_retries = 2`.  No validation of
    `user_text` is performed anywhere in the handler. -/
def handle_message (w : DispatchWorld) (user_text : String) :
    Except Unit (List String × List String) :=
  if w.chatActionOk then
    Except.ok (handle_message_loop w user_text 2 0 [])
  else
    Except.error ()

/-- The replies a handle_message call delivered to the user (none when the
    handler aborted with an uncaught exception). -/
def repliesSent (r : Except Unit (List String × List String)) : List String :=
  match r with
  | Except.ok out => out.1
  | Except.error _ => []

/-- A world whose chat-action call succeeds and whose first completion call
    returns "Hi there". -/
def okWorld : DispatchWorld :=
  ⟨true, fun _ => CompletionOutcome.success "Hi there"⟩

/-- A world identical to okWorld except that the chat-action call fails. -/
def noChatActionWorld : DispatchWorld :=
  ⟨false, fun _ => CompletionOutcome.success "Hi there"⟩

/-- An inbound text of 5000 characters, over the default 4000 limit. -/
def longText : String := String.mk (List.replicate 5000 'a')

/- ============ main.py / fastapi_bot.py : process_update ============ -/

/-- A Python exception escaping request parsing or update processing. -/
inductive PyError where
  | err

/-- main.process_update (lines 147-161): the whole body is wrapped in
    try/except and both branches return HTTP 200.  `parsed` stands for
    `request.json()` plus `Update.de_json`, `handler` for
    `application.process_update`. -/
def MainPy.process_update {U : Type} (parsed : Except PyError U)
    (handler : U → Except PyError Unit) : Nat :=
  match parsed with
  | Except.error _ => 200
  | Except.ok u =>
    match handler u with
    | Except.ok _ => 200
    | Except.error _ => 200

/-- fastapi_bot.process_update (lines 70-76): no try/except, so an exception
    in parsing or processing propagates to the framework instead of reaching
    the `return Response(status_code=HTTPStatus.OK)` line. -/
def FastapiBot.process_update {U : Type} (parsed : Except PyError U)
    (handler : U → Except PyError Unit) : Except PyError Nat :=
  match parsed with
  | Except.error e => Except.error e
  | Except.ok u =>
    match handler u with
    | Except.ok _ => Except.ok 200
    | Except.error e => Except.error e

/- ================= openai_client.py : generate_response ================= -/

/-- Outcome of the upstream API interaction inside one execution of the
    generate_response body (the whole try block up to and including
    `.strip()`), as classified by the except clauses. -/
inductive ApiOutcome where
  | success (content : String)
  | rateLimitError
  | apiConnectionError
  | apiError
  | otherError (msg : String)

/-- The classified exception generate_response re-raises to its caller.
    In Python both `apiError` and `wrappedAPIError` are APIError instances;
    the latter is the `raise APIError(f"Unexpected error: {e}")` conversion
    of an uncaught exception. -/
inductive GenError where
  | rateLimitError
  | apiConnectionError
  | apiError
  | wrappedAPIError (msg : String)

/-- The body of openai_client.generate_response (undecorated): returns the
    stripped reply or the re-raised classified error, together with the
    updated global metrics tracker.  `elapsed` stands for the measured
    `time.time() - start_time`. -/
def generate_response (outcome : ApiOutcome) (elapsed : ℚ) (m : MetricsTracker) :
    Except GenError String × MetricsTracker :=
  match outcome with
  | ApiOutcome.success content =>
      (Except.ok content.strip, m.record_request elapsed false)
  | ApiOutcome.rateLimitError =>
      (Except.error GenError.rateLimitError, m.record_request elapsed true)
  | ApiOutcome.apiConnectionError =>
      (Except.error GenError.apiConnectionError, m.record_request elapsed true)
  | ApiOutcome.apiError =>
      (Except.error GenError.apiError, m.record_request elapsed true)
  | ApiOutcome.otherError msg =>
      (Except.error (GenError.wrappedAPIError (String.append "Unexpected error: " msg)),
       m.record_request elapsed true)

/- ===================== helper lemmas ===================== -/

/-- While `retry_count <= max_retries` holds on entry, the retry loop of
    main.handle_message sends exactly one reply. -/
theorem handle_message_loop_length :
    ∀ (n : Nat) (w : DispatchWorld) (t : String) (mr rc : Nat) (up : List String),
      mr - rc ≤ n → rc ≤ mr →
      ((handle_message_loop w t mr rc up).1).length = 1 := by
  intro n
  induction n with
  | zero =>
      intro w t mr rc up hn hle
      rw [handle_message_loop, if_pos hle]
      split
      · simp
      · split
        · omega
        · simp
      · split
        · omega
        · simp
      · simp
      · simp
  | succ k ih =>
      intro w t mr rc up hn hle
      rw [handle_message_loop, if_pos hle]
      split
      · simp
      · split
        · exact ih w t mr (rc + 1) (up ++ [t]) (by omega) (by omega)
        · simp
      · split
        · exact ih w t mr (rc + 1) (up ++ [t]) (by omega) (by omega)
        · simp
      · simp
      · simp

/-- record_request preserves `error_count <= request_count` along any call
    sequence. -/
theorem applyRecords_error_le (calls : List (ℚ × Bool)) :
    ∀ m : MetricsTracker, m.error_count ≤ m.request_count →
      (applyRecords calls m).error_count ≤ (applyRecords calls m).request_count := by
  induction calls with
  | nil => intro m h; simpa [applyRecords] using h
  | cons c rest ih =>
      intro m h
      have hstep : (m.record_request c.1 c.2).error_count ≤
          (m.record_request c.1 c.2).request_count := by
        simp [MetricsTracker.record_request]
        split <;> omega
      have := ih (m.record_request c.1 c.2) hstep
      simpa [applyRecords, List.foldl] using this

/- ===================== claim theorems ===================== -/

/-- C1 (code bug evaluated at the failing input): a 5000-character inbound
    text fails validate_input with the default 4000-character limit, yet
    main.handle_message — which never calls validate_input — still invokes
    the completion client with that text (the upstream-call list is
    `[longText]`, not empty) and replies with the generated answer, never
    with the ValidationError localized message.  The claim says such a text
    gets the ValidationError message and zero upstream calls. -/
theorem c1_overlong_text_reaches_completion_client :
    validate_input (some longText) 4000 = false ∧
      handle_message okWorld longText = Except.ok ([ "Hi there" ], [longText]) := by
  constructor
  · have h : longText.length = 5000 := by
      have h0 : longText.length = (List.replicate 5000 'a').length := rfl
      rw [h0, List.length_replicate]
    simp [validate_input, h]
  · simp [handle_message, okWorld, handle_message_loop]
    decide

/-- C2 (code bug evaluated at the failing input): with `max_retries = 1` and
    an operation failing on every attempt, the wrapper produced by
    utils.with_retry invokes the operation only once and then raises
    NameError (utils.py never imports asyncio, so the backoff line
    `await asyncio.sleep(total_delay)` fails) instead of making 2 attempts
    and propagating the operation's final failure as the claim states. -/
theorem c2_with_retry_always_fail_eval :
    with_retry_wrapper (fun _ => (Except.error OpErr.boom : Except OpErr Nat)) 1 =
      (RetryResult.nameError, 1) := rfl

/-- C3 (code bug evaluated at the failing input): with `max_retries = 3` and
    an operation that fails once with a retryable error and then succeeds,
    the wrapper produced by utils.with_retry never reaches the second
    attempt: the first backoff wait raises NameError (asyncio is not
    imported in utils.py), so no success value is returned and no delay is
    ever waited, against the claimed N+1 attempts with bounded delays. -/
theorem c3_with_retry_fail_then_succeed_eval :
    with_retry_wrapper
        (fun k => if k = 0 then Except.error OpErr.boom else Except.ok (42 : Nat)) 3 =
      (RetryResult.nameError, 1) := rfl

/-- C4 counterexample: when the typing-indicator call
    `context.bot.send_chat_action` fails, main.handle_message aborts with
    the propagated exception and sends zero user-visible replies, refuting
    the claim that the handler always sends exactly one reply and that a
    typing-indicator failure cannot abort the request. -/
theorem c4_chat_action_failure_sends_no_reply :
    handle_message noChatActionWorld "Hello" = Except.error () ∧
      (repliesSent (handle_message noChatActionWorld "Hello")).length = 0 :=
  ⟨rfl, rfl⟩

/-- C4 amended: if the typing-indicator call succeeds, main.handle_message
    sends exactly one user-visible reply — the generated answer or exactly
    one error message — whatever classified or unexpected exceptions the
    upstream call raises on any of its attempts. -/
theorem c4_one_reply_when_chat_action_succeeds :
    ∀ (w : DispatchWorld) (user_text : String), w.chatActionOk = true →
      (repliesSent (handle_message w user_text)).length = 1 := by
  intro w user_text h
  simp [handle_message, h, repliesSent]
  exact handle_message_loop_length 2 w user_text 2 0 [] (by omega) (by omega)

/-- C4 witness: the amended theorem applied to a concrete world whose
    typing-indicator call succeeds and whose first upstream call succeeds. -/
theorem c4_one_reply_when_chat_action_succeeds_witness :
    okWorld.chatActionOk = true ∧
      (repliesSent (handle_message okWorld "Hello")).length = 1 :=
  ⟨rfl, c4_one_reply_when_chat_action_succeeds okWorld "Hello" rfl⟩

/-- C5 counterexample: fastapi_bot.process_update has no try/except, so when
    internal processing of a delivery raises, the endpoint propagates the
    exception and produces no 200 acknowledgment (result has no success
    value), refuting the claim for that cited implementation. -/
theorem c5_fastapi_process_update_propagates_failure :
    (FastapiBot.process_update (Except.ok ()) (fun _ => Except.error PyError.err)).toOption
      = none := rfl

/-- C5 amended: main.process_update wraps its whole body in try/except and
    returns HTTP 200 for every delivery, whether parsing and processing
    succeed or raise; the fastapi_bot.py variant instead propagates internal
    failures (see the counterexample). -/
theorem c5_main_process_update_always_acknowledges :
    ∀ (U : Type) (parsed : Except PyError U) (handler : U → Except PyError Unit),
      MainPy.process_update parsed handler = 200 := by
  intro U parsed handler
  cases parsed with
  | error e => rfl
  | ok u => cases h : handler u <;> simp [MainPy.process_update, h]

/-- C6: every execution of the generate_response body records exactly one
    metrics entry — with had_error=false exactly when it returns normally —
    and either returns the stripped reply text (on upstream success) or
    re-raises a classified exception: RateLimitError, APIConnectionError,
    APIError, or an APIError wrapping any unexpected exception.  No failure
    path is swallowed or returns normally. -/
theorem c6_generate_response_records_and_classifies :
    ∀ (outcome : ApiOutcome) (elapsed : ℚ) (m : MetricsTracker),
      (generate_response outcome elapsed m).2.request_count = m.request_count + 1 ∧
      (generate_response outcome elapsed m).2.error_count =
        m.error_count + (if (generate_response outcome elapsed m).1.isOk then 0 else 1) ∧
      (match outcome with
        | ApiOutcome.success c =>
            (generate_response outcome elapsed m).1 = Except.ok c.strip
        | ApiOutcome.rateLimitError =>
            (generate_response outcome elapsed m).1 = Except.error GenError.rateLimitError
        | ApiOutcome.apiConnectionError =>
            (generate_response outcome elapsed m).1 = Except.error GenError.apiConnectionError
        | ApiOutcome.apiError =>
            (generate_response outcome elapsed m).1 = Except.error GenError.apiError
        | ApiOutcome.otherError s =>
            (generate_response outcome elapsed m).1 =
              Except.error (GenError.wrappedAPIError (String.append "Unexpected error: " s))) := by
  intro outcome elapsed m
  cases outcome <;>
    simp [generate_response, MetricsTracker.record_request, Except.isOk, Except.toBool]

/-- C7: for every tracker state the snapshot reports
    error_rate = error_count / max(1, total_requests) and
    avg_processing_time = total_processing_time / max(1, total_requests);
    and after recording three error-free requests with processing times
    1.0, 2.0, 3.0 on a fresh tracker the snapshot reports
    avg_processing_time = 2, error_rate = 0 and total_requests = 3. -/
theorem c7_metrics_snapshot_formulas_and_example :
    (∀ (m : MetricsTracker) (now : ℚ),
      (m.get_metrics now).error_rate =
        (m.error_count : ℚ) / ((max 1 m.request_count : Nat) : ℚ) ∧
      (m.get_metrics now).avg_processing_time =
        m.total_processing_time / ((max 1 m.request_count : Nat) : ℚ)) ∧
    (∀ (start now : ℚ),
      (((((MetricsTracker.init start).record_request 1 false).record_request 2 false).record_request
          3 false).get_metrics now).avg_processing_time = 2 ∧
      (((((MetricsTracker.init start).record_request 1 false).record_request 2 false).record_request
          3 false).get_metrics now).error_rate = 0 ∧
      (((((MetricsTracker.init start).record_request 1 false).record_request 2 false).record_request
          3 false).get_metrics now).total_requests = 3) := by
  constructor
  · intro m now
    exact ⟨rfl, rfl⟩
  · intro start now
    refine ⟨?_, ?_, rfl⟩ <;>
      norm_num [MetricsTracker.get_metrics, MetricsTracker.record_request, MetricsTracker.init]

/-- C9: on every tracker reachable from a fresh one by record_request calls,
    error_count never exceeds request_count; and each record_request call
    increments request_count by exactly 1 and increments error_count by 1
    exactly when had_error is true. -/
theorem c9_metrics_counters_invariant :
    (∀ (calls : List (ℚ × Bool)) (start : ℚ),
      (applyRecords calls (MetricsTracker.init start)).error_count ≤
        (applyRecords calls (MetricsTracker.init start)).request_count) ∧
    (∀ (m : MetricsTracker) (t : ℚ) (b : Bool),
      (m.record_request t b).request_count = m.request_count + 1 ∧
      (m.record_request t b).error_count =
        (if b then m.error_count + 1 else m.error_count)) := by
  constructor
  · intro calls start
    exact applyRecords_error_le calls (MetricsTracker.init start) (by simp [MetricsTracker.init])
  · intro m t b
    constructor <;> simp [MetricsTracker.record_request]

/-- C10: for every max_retries and every wrapped operation, the wrapper of
    utils.with_retry never reaches the statement after the while loop (the
    `raise RuntimeError("Unexpected retry loop exit")`): every execution
    terminates inside the loop, by returning the operation's value or by
    raising there (the operation's propagated exception, or the NameError
    of the unimported asyncio on the backoff line). -/
theorem c10_retry_loop_exit_unreachable :
    ∀ (E A : Type) (op : Nat → Except E A) (max_retries : Nat),
      ((with_retry_wrapper op max_retries).1).isLoopExit = false := by
  intro E A op mr
  unfold with_retry_wrapper with_retry_go
  rw [if_pos (Nat.zero_le mr)]
  cases h : op 0 <;> simp only [h]
  · split <;> rfl
  · rfl
